import Mathlib

/-!
# Py2048 tile grid model

A shallow embedding of `src/tilegridmodel/tile.{h,cpp}` and
`src/tilegridmodel/tilegridmodel.{h,cpp}`.

* C++ `int` values are carried as `Int`; no function of the model performs
  arithmetic on them, so no wrap-around can occur.
* A member function that mutates the object or emits a Qt signal returns the
  new object state together with the list of signals emitted, in order.
* `const` member functions are functions of the object state.
* `Tile*` is `Option Tile`, with `none` for `nullptr`.
* Qt value types (`QModelIndex`, `QVariant`, `Qt::ItemFlags`, `QList`) are
  external to the repository; the few operations used by the code are modelled
  after their documented behaviour.
-/

namespace Py2048

/-! ## Tile (tile.h, tile.cpp) -/

/-- Signals declared by `Tile` (tile.h:16-17). -/
inductive TileSignal where
  | valueChanged (v : Int)
  deriving DecidableEq

/-- The data members of `Tile` (tile.h:18-19). -/
structure Tile where
  m_value : Int
  deriving DecidableEq

/-- Result of a non-const `Tile` member call: new state and emitted signals. -/
structure TileEffect where
  state : Tile
  emitted : List TileSignal
  deriving DecidableEq

/-- Constructor `Tile::Tile` (tile.cpp:3-6): `m_value(2)`. -/
def Tile.new : Tile := ⟨2⟩

/-- Getter `Tile::value` (tile.cpp:8-11): `return m_value;`. -/
def Tile.value (t : Tile) : Int := t.m_value

/-- Setter `Tile::setValue` (tile.cpp:13-19). -/
def Tile.setValue (t : Tile) (v : Int) : TileEffect :=
  if t.m_value ≠ v then
    ⟨⟨v⟩, [TileSignal.valueChanged v]⟩
  else
    ⟨t, []⟩

/-- The public member calls of `Tile` (tile.h:14-15). -/
inductive TileCall where
  | value
  | setValue (v : Int)
  deriving DecidableEq

/-- Observable outcome of one member call on a `Tile`. -/
structure TileStep where
  state : Tile
  ret : Option Int
  emitted : List TileSignal
  deriving DecidableEq

/-- One member call on a `Tile`: `value()` is `const` and its body has no
`emit`; `setValue` returns `void`. -/
def Tile.step (t : Tile) : TileCall → TileStep
  | TileCall.value => ⟨t, some t.value, []⟩
  | TileCall.setValue v => ⟨(t.setValue v).state, none, (t.setValue v).emitted⟩

/-! ## Qt value types used by the grid model -/

/-- Model index `QModelIndex`: row, column and whether the model pointer is
non-null. -/
structure QModelIndex where
  r : Int
  c : Int
  m : Bool
  deriving DecidableEq

/-- Default constructor `QModelIndex()`: row -1, column -1, null model. -/
def QModelIndex.new : QModelIndex := ⟨-1, -1, false⟩

/-- Validity test `QModelIndex::isValid`:
`(r >= 0) && (c >= 0) && (m != nullptr)`. -/
def QModelIndex.isValid (i : QModelIndex) : Bool :=
  decide (0 ≤ i.r) && decide (0 ≤ i.c) && i.m

/-- Variant `QVariant`, restricted to the values the model handles: the
default-constructed (invalid) variant and variants holding an `int`. -/
inductive QVariant where
  | invalid
  | int (v : Int)
  deriving DecidableEq

/-- Flag sets `Qt::ItemFlags`, as bit masks. -/
abbrev ItemFlags := Nat

/-- Qt constant `Qt::NoItemFlags`. -/
def NoItemFlags : ItemFlags := 0

/-- Qt constant `Qt::ItemIsSelectable`. -/
def ItemIsSelectable : ItemFlags := 1

/-- Qt constant `Qt::ItemIsEditable`. -/
def ItemIsEditable : ItemFlags := 2

/-- Qt constant `Qt::ItemIsEnabled`. -/
def ItemIsEnabled : ItemFlags := 32

/-- Qt constant `Qt::DisplayRole`. -/
def DisplayRole : Int := 0

/-- Qt constant `Qt::EditRole`. -/
def EditRole : Int := 2

/-- Fill constructor `QList<T>(size, value)`: a list of `size` copies of
`value`. -/
def QList.fill {α : Type} (size : Int) (value : α) : List α :=
  List.replicate size.toNat value

/-- Base implementation `QAbstractItemModel::flags` as documented by Qt:
selectable and enabled for an index of this model, empty otherwise. -/
def QAbstractItemModel.flags (index : QModelIndex) : ItemFlags :=
  if index.isValid then ItemIsSelectable ||| ItemIsEnabled else NoItemFlags

/-! ## TileGridModel (tilegridmodel.h, tilegridmodel.cpp) -/

/-- Container type `TileGrid = QList<QList<Tile*>>` (tilegridmodel.h:9). -/
abbrev TileGrid := List (List (Option Tile))

/-- The data members of `TileGridModel` (tilegridmodel.h:29-30). -/
structure TileGridModel where
  m_tilegrid : TileGrid
  deriving DecidableEq

/-- Signals of the model emitted by the code: `dataChanged(topLeft,
bottomRight, roles)`. -/
inductive ModelSignal where
  | dataChanged (topLeft bottomRight : QModelIndex) (roles : List Int)
  deriving DecidableEq

/-- Result of a `setData` call: new state, returned `bool`, emitted signals. -/
structure SetDataResult where
  state : TileGridModel
  ret : Bool
  emitted : List ModelSignal
  deriving DecidableEq

/-- Constructor `TileGridModel::TileGridModel` (tilegridmodel.cpp:4-7):
`m_tilegrid(row_count, QList<Tile*>(column_count, nullptr))`. -/
def TileGridModel.new (row_count column_count : Int) : TileGridModel :=
  ⟨QList.fill row_count (QList.fill column_count (none : Option Tile))⟩

/-- Member `TileGridModel::rowCount` (tilegridmodel.cpp:9-15). With a valid
parent it returns 0; otherwise control reaches the end of the body without a
`return` statement, so no value is returned: `none`. -/
def TileGridModel.rowCount (_self : TileGridModel) (parent : QModelIndex) :
    Option Int :=
  if parent.isValid then some 0 else none

/-- Member `TileGridModel::columnCount` (tilegridmodel.cpp:17-23). Same shape
as `rowCount`. -/
def TileGridModel.columnCount (_self : TileGridModel) (parent : QModelIndex) :
    Option Int :=
  if parent.isValid then some 0 else none

/-- Member `TileGridModel::data` (tilegridmodel.cpp:25-32): both paths return
`QVariant()`. -/
def TileGridModel.data (_self : TileGridModel) (index : QModelIndex)
    (_role : Int) : QVariant :=
  if !index.isValid then QVariant.invalid else QVariant.invalid

/-- Member `TileGridModel::setData` (tilegridmodel.cpp:34-42): compares
`data(index, role)` with `value`; when they differ it emits
`dataChanged(index, index, {role})` and returns `true`, without touching
`m_tilegrid`. -/
def TileGridModel.setData (self : TileGridModel) (index : QModelIndex)
    (value : QVariant) (role : Int) : SetDataResult :=
  if self.data index role ≠ value then
    ⟨self, true, [ModelSignal.dataChanged index index [role]]⟩
  else
    ⟨self, false, []⟩

/-- Member `TileGridModel::flags` (tilegridmodel.cpp:44-50); `base` is the
base-class implementation `QAbstractItemModel::flags`. -/
def TileGridModel.flags (base : QModelIndex → ItemFlags)
    (_self : TileGridModel) (index : QModelIndex) : ItemFlags :=
  if !index.isValid then NoItemFlags else base index ||| ItemIsEditable

/-! ## Derived notions used to state properties -/

/-- One `setData` call: index, value, role. -/
structure SetDataCall where
  index : QModelIndex
  value : QVariant
  role : Int
  deriving DecidableEq

/-- State of the model after a finite sequence of `setData` calls. -/
def TileGridModel.setDataSeq (self : TileGridModel) :
    List SetDataCall → TileGridModel
  | [] => self
  | k :: ks => (self.setData k.index k.value k.role).state.setDataSeq ks

/-- Dimension predicate: the container has `rows` rows, each of `columns`
slots. -/
def TileGridModel.hasDims (self : TileGridModel) (rows columns : Int) : Prop :=
  (self.m_tilegrid.length : Int) = rows ∧
    ∀ row ∈ self.m_tilegrid, (row.length : Int) = columns

instance (self : TileGridModel) (rows columns : Int) :
    Decidable (self.hasDims rows columns) := by
  unfold TileGridModel.hasDims; infer_instance

/-- Content of the slot at `(r, c)` of the container: `none` when the position
is outside the container, `some none` when the slot holds `nullptr`, and
`some (some t)` when it holds a tile. -/
def TileGridModel.slot (self : TileGridModel) (r c : Nat) :
    Option (Option Tile) :=
  match self.m_tilegrid[r]? with
  | none => none
  | some row => row[c]?

/-- Error conditions a call may signal. The specification names a single one;
no function body of the model contains a `throw`. -/
inductive ModelError where
  | OutOfRange
  deriving DecidableEq

/-- Outcome of calling `data`: the body has no failing path, the call returns
normally. -/
def TileGridModel.dataCall (self : TileGridModel) (index : QModelIndex)
    (role : Int) : Except ModelError QVariant :=
  Except.ok (self.data index role)

/-- Outcome of calling `setData`: the call returns normally. -/
def TileGridModel.setDataCall (self : TileGridModel) (index : QModelIndex)
    (value : QVariant) (role : Int) : Except ModelError SetDataResult :=
  Except.ok (self.setData index value role)

/-- Outcome of calling `flags`: the call returns normally. -/
def TileGridModel.flagsCall (base : QModelIndex → ItemFlags)
    (self : TileGridModel) (index : QModelIndex) : Except ModelError ItemFlags :=
  Except.ok (TileGridModel.flags base self index)

/-! ## Auxiliary lemmas -/

theorem Tile.setValue_state_value (t : Tile) (v : Int) :
    (t.setValue v).state.m_value = v := by
  unfold Tile.setValue
  by_cases h : t.m_value = v
  · simp [h]
  · simp [h]

theorem TileGridModel.data_eq_invalid (self : TileGridModel)
    (index : QModelIndex) (role : Int) :
    self.data index role = QVariant.invalid := by
  unfold TileGridModel.data
  split <;> rfl

theorem TileGridModel.setData_state (self : TileGridModel)
    (index : QModelIndex) (value : QVariant) (role : Int) :
    (self.setData index value role).state = self := by
  unfold TileGridModel.setData
  split <;> rfl

theorem TileGridModel.setDataSeq_eq (self : TileGridModel)
    (ks : List SetDataCall) : self.setDataSeq ks = self := by
  induction ks generalizing self with
  | nil => rfl
  | cons k ks ih =>
    simp only [TileGridModel.setDataSeq]
    rw [ih, TileGridModel.setData_state]

theorem TileGridModel.new_hasDims (rows columns : Int) (hr : 0 ≤ rows)
    (hc : 0 ≤ columns) : (TileGridModel.new rows columns).hasDims rows columns := by
  unfold TileGridModel.hasDims TileGridModel.new QList.fill
  constructor
  · simp [Int.toNat_of_nonneg hr]
  · intro row hrow
    rw [List.eq_of_mem_replicate hrow]
    simp [Int.toNat_of_nonneg hc]

theorem TileGridModel.new_slot (rows columns : Int) (r c : Nat)
    (hr : (r : Int) < rows) (hc : (c : Int) < columns) :
    (TileGridModel.new rows columns).slot r c = some none := by
  have hr2 : r < rows.toNat := by omega
  have hc2 : c < columns.toNat := by omega
  unfold TileGridModel.slot TileGridModel.new QList.fill
  simp [List.getElem?_replicate, hr2, hc2]

theorem ItemFlags.or_and_right (a b : Nat) : (a ||| b) &&& b = b := by
  apply Nat.eq_of_testBit_eq
  intro i
  simp only [Nat.testBit_and, Nat.testBit_or]
  cases a.testBit i <;> cases b.testBit i <;> rfl

theorem ItemFlags.or_and_left (a b : Nat) : (a ||| b) &&& a = a := by
  apply Nat.eq_of_testBit_eq
  intro i
  simp only [Nat.testBit_and, Nat.testBit_or]
  cases a.testBit i <;> cases b.testBit i <;> rfl

/-! ## Tile -/

/-- C1: for every tile with current value `c` and every `v`, `setValue v`
stores `v` and emits exactly one `valueChanged v` when `v ≠ c`, leaves the
tile unchanged and emits nothing when `v = c`; a signal is emitted iff `v`
differs from the current value, and `value()` returns `v` afterwards. -/
theorem Tile_setValue_contract (t : Tile) (v : Int) :
    (v ≠ t.value →
        (t.setValue v).state.m_value = v ∧
        (t.setValue v).emitted = [TileSignal.valueChanged v]) ∧
    (v = t.value →
        (t.setValue v).state = t ∧ (t.setValue v).emitted = []) ∧
    ((t.setValue v).emitted ≠ [] ↔ v ≠ t.value) ∧
    (t.setValue v).state.value = v := by
  refine ⟨?_, ?_, ?_, Tile.setValue_state_value t v⟩
  · intro h
    have h2 : t.m_value ≠ v := fun e => h e.symm
    simp [Tile.setValue, h2]
  · intro h
    have h2 : t.m_value = v := h.symm
    simp [Tile.setValue, h2]
  · by_cases h : t.m_value = v
    · simp [Tile.setValue, Tile.value, h]
    · have h2 : ¬ v = t.m_value := fun e => h e.symm
      simp [Tile.setValue, Tile.value, h, h2]

/-- Witness for C1: on a fresh tile (value 2), `setValue 5` stores 5 and emits
`valueChanged 5`; `setValue 2` changes nothing and emits nothing. -/
theorem Tile_setValue_contract_witness :
    ((Tile.new.setValue 5).state.m_value = 5 ∧
      (Tile.new.setValue 5).emitted = [TileSignal.valueChanged 5]) ∧
    ((Tile.new.setValue 2).state = Tile.new ∧
      (Tile.new.setValue 2).emitted = []) :=
  ⟨(Tile_setValue_contract Tile.new 5).1 (by decide),
   (Tile_setValue_contract Tile.new 2).2.1 (by decide)⟩

/-- C10: a newly constructed tile has value 2, and a `value()` call returns
the stored value, leaves the tile state unchanged and emits no signal. -/
theorem Tile_new_value_and_value_pure :
    Tile.new.value = 2 ∧
    (Tile.new.step TileCall.value).ret = some 2 ∧
    ∀ t : Tile,
      t.value = t.m_value ∧
      (t.step TileCall.value).ret = some t.m_value ∧
      (t.step TileCall.value).state = t ∧
      (t.step TileCall.value).emitted = [] :=
  ⟨rfl, rfl, fun _ => ⟨rfl, rfl, rfl, rfl⟩⟩

/-! ## TileGridModel: properties that hold -/

/-- C7: for non-negative `rows` and `columns` the constructor yields a
container of exactly `rows` rows of exactly `columns` slots each; every
`setData` call, whatever it returns, leaves the number of rows and the length
of every row unchanged; hence the dimensions are the same after any finite
sequence of `setData` calls. -/
theorem TileGridModel_dims_invariant (rows columns : Int) (hr : 0 ≤ rows)
    (hc : 0 ≤ columns) :
    (TileGridModel.new rows columns).hasDims rows columns ∧
    (∀ (self : TileGridModel) (k : SetDataCall),
      (self.setData k.index k.value k.role).state.m_tilegrid.length
          = self.m_tilegrid.length ∧
      (self.setData k.index k.value k.role).state.m_tilegrid.map List.length
          = self.m_tilegrid.map List.length) ∧
    (∀ ks : List SetDataCall,
      ((TileGridModel.new rows columns).setDataSeq ks).hasDims rows columns) := by
  refine ⟨TileGridModel.new_hasDims rows columns hr hc, ?_, ?_⟩
  · intro self k
    rw [TileGridModel.setData_state]
    exact ⟨rfl, rfl⟩
  · intro ks
    rw [TileGridModel.setDataSeq_eq]
    exact TileGridModel.new_hasDims rows columns hr hc

/-- Witness for C7: a 2 by 3 grid, and a 0 by 0 grid, before and after two
`setData` calls. -/
theorem TileGridModel_dims_invariant_witness :
    ((TileGridModel.new 2 3).hasDims 2 3 ∧
      ((TileGridModel.new 2 3).setDataSeq
        [⟨⟨0, 0, true⟩, QVariant.int 5, EditRole⟩,
         ⟨⟨1, 2, true⟩, QVariant.int 7, EditRole⟩]).hasDims 2 3) ∧
    (TileGridModel.new 0 0).hasDims 0 0 :=
  ⟨⟨(TileGridModel_dims_invariant 2 3 (by decide) (by decide)).1,
    (TileGridModel_dims_invariant 2 3 (by decide) (by decide)).2.2 _⟩,
   (TileGridModel_dims_invariant 0 0 (by decide) (by decide)).1⟩

/-- C9: for a valid index `flags` returns the base-class flags together with
`ItemIsEditable` (so the editable bit is set and every base flag is kept); for
an invalid index it returns `NoItemFlags`, in which the editable bit is
clear. -/
theorem TileGridModel_flags_editable (base : QModelIndex → ItemFlags)
    (self : TileGridModel) (index : QModelIndex) :
    (index.isValid = true →
      TileGridModel.flags base self index = base index ||| ItemIsEditable ∧
      TileGridModel.flags base self index &&& ItemIsEditable = ItemIsEditable ∧
      TileGridModel.flags base self index &&& base index = base index) ∧
    (index.isValid = false →
      TileGridModel.flags base self index = NoItemFlags ∧
      TileGridModel.flags base self index &&& ItemIsEditable = 0) := by
  constructor
  · intro h
    have e : TileGridModel.flags base self index = base index ||| ItemIsEditable := by
      simp [TileGridModel.flags, h]
    rw [e]
    exact ⟨rfl, ItemFlags.or_and_right _ _, ItemFlags.or_and_left _ _⟩
  · intro h
    have e : TileGridModel.flags base self index = NoItemFlags := by
      simp [TileGridModel.flags, h]
    rw [e]
    exact ⟨rfl, by simp [NoItemFlags]⟩

/-- Witness for C9: with Qt's base implementation, the valid index (0, 0) of a
1 by 1 grid is selectable, editable and enabled (35), and the default index
gets `NoItemFlags`. -/
theorem TileGridModel_flags_editable_witness :
    (TileGridModel.flags QAbstractItemModel.flags (TileGridModel.new 1 1)
        ⟨0, 0, true⟩ = 35 ∧
      TileGridModel.flags QAbstractItemModel.flags (TileGridModel.new 1 1)
        ⟨0, 0, true⟩ &&& ItemIsEditable = ItemIsEditable) ∧
    TileGridModel.flags QAbstractItemModel.flags (TileGridModel.new 1 1)
        QModelIndex.new = NoItemFlags :=
  ⟨⟨((TileGridModel_flags_editable QAbstractItemModel.flags
        (TileGridModel.new 1 1) ⟨0, 0, true⟩).1 (by decide)).1.trans (by decide),
    ((TileGridModel_flags_editable QAbstractItemModel.flags
        (TileGridModel.new 1 1) ⟨0, 0, true⟩).1 (by decide)).2.1⟩,
   ((TileGridModel_flags_editable QAbstractItemModel.flags
        (TileGridModel.new 1 1) QModelIndex.new).2 (by decide)).1⟩

/-! ## TileGridModel: behaviour of the unimplemented members -/

/-- C2 (code evaluated at the failing input): on a 1 by 1 grid, after
`setData` of the value 5 at index (0, 0), which returns `true`, `data` at the
same index returns the invalid `QVariant()`, not 5. -/
theorem TileGridModel_setData_then_data :
    ((TileGridModel.new 1 1).setData ⟨0, 0, true⟩ (QVariant.int 5) EditRole).ret
        = true ∧
    ((TileGridModel.new 1 1).setData ⟨0, 0, true⟩ (QVariant.int 5)
        EditRole).state.data ⟨0, 0, true⟩ DisplayRole = QVariant.invalid ∧
    ((TileGridModel.new 1 1).setData ⟨0, 0, true⟩ (QVariant.int 5)
        EditRole).state.data ⟨0, 0, true⟩ DisplayRole ≠ QVariant.int 5 := by
  decide

/-- C3 (code evaluated at the failing input): on a 1 by 1 grid the first
`setData` of 5 at (0, 0) returns `true` and emits one `dataChanged` for that
index; the immediately repeated call also returns `true` and emits the same
signal again, instead of returning `false` silently. -/
theorem TileGridModel_setData_repeated :
    ((TileGridModel.new 1 1).setData ⟨0, 0, true⟩ (QVariant.int 5) EditRole).ret
        = true ∧
    ((TileGridModel.new 1 1).setData ⟨0, 0, true⟩ (QVariant.int 5)
        EditRole).emitted
        = [ModelSignal.dataChanged ⟨0, 0, true⟩ ⟨0, 0, true⟩ [EditRole]] ∧
    (((TileGridModel.new 1 1).setData ⟨0, 0, true⟩ (QVariant.int 5)
        EditRole).state.setData ⟨0, 0, true⟩ (QVariant.int 5) EditRole).ret
        = true ∧
    (((TileGridModel.new 1 1).setData ⟨0, 0, true⟩ (QVariant.int 5)
        EditRole).state.setData ⟨0, 0, true⟩ (QVariant.int 5) EditRole).emitted
        = [ModelSignal.dataChanged ⟨0, 0, true⟩ ⟨0, 0, true⟩ [EditRole]] := by
  decide

/-- C4 (code evaluated at the failing input): on a 2 by 3 grid, `rowCount()`
and `columnCount()` with the default (invalid) parent return no value, so
neither 2 nor 3 is returned. -/
theorem TileGridModel_counts_default_parent :
    (TileGridModel.new 2 3).rowCount QModelIndex.new = none ∧
    (TileGridModel.new 2 3).columnCount QModelIndex.new = none ∧
    (TileGridModel.new 2 3).rowCount QModelIndex.new ≠ some 2 ∧
    (TileGridModel.new 2 3).columnCount QModelIndex.new ≠ some 3 := by
  decide

/-- C5 (code evaluated at the failing input): on a freshly constructed 2 by 3
grid, `data` at the valid index (0, 0) returns the invalid `QVariant()`, not
the default tile value 2. -/
theorem TileGridModel_data_fresh :
    (TileGridModel.new 2 3).data ⟨0, 0, true⟩ DisplayRole = QVariant.invalid ∧
    (TileGridModel.new 2 3).data ⟨0, 0, true⟩ DisplayRole ≠ QVariant.int 2 := by
  decide

/-! ## TileGridModel: out-of-range indices and slot contents -/

/-- C6 (counterexample): on a 1 by 1 grid, `data` at the out-of-range
coordinate (0, 5) returns normally with the invalid `QVariant()`, both for an
index carrying these coordinates and for the default index; it does not fail
with `OutOfRange`. -/
theorem TileGridModel_dataCall_not_OutOfRange :
    (TileGridModel.new 1 1).dataCall ⟨0, 5, true⟩ DisplayRole
        = Except.ok QVariant.invalid ∧
    (TileGridModel.new 1 1).dataCall ⟨0, 5, true⟩ DisplayRole
        ≠ Except.error ModelError.OutOfRange ∧
    (TileGridModel.new 1 1).dataCall QModelIndex.new DisplayRole
        ≠ Except.error ModelError.OutOfRange := by
  refine ⟨rfl, ?_, ?_⟩ <;> intro h <;> cases h

/-- C6 (amended): for every grid with `rows` rows and `columns` columns and
every invalid coordinate (negative row or column, or row at least `rows`, or
column at least `columns`), no call fails with `OutOfRange`; each returns
normally: `data` returns the invalid `QVariant()`; `flags` returns
`NoItemFlags` when the index is not valid and the base-class flags with
`ItemIsEditable` otherwise; `setData` returns a `bool`, leaves the grid
unchanged, and for the invalid `QVariant()` as value returns `false` without
emitting. -/
theorem TileGridModel_invalid_coordinate_returns
    (base : QModelIndex → ItemFlags) (self : TileGridModel)
    (rows columns : Int) (index : QModelIndex) (value : QVariant) (role : Int)
    (_hd : self.hasDims rows columns)
    (_hbad : index.r < 0 ∨ index.c < 0 ∨ rows ≤ index.r ∨ columns ≤ index.c) :
    self.dataCall index role = Except.ok QVariant.invalid ∧
    (index.isValid = false →
      TileGridModel.flagsCall base self index = Except.ok NoItemFlags) ∧
    (index.isValid = true →
      TileGridModel.flagsCall base self index
        = Except.ok (base index ||| ItemIsEditable)) ∧
    (∃ res, self.setDataCall index value role = Except.ok res ∧
      res.state = self ∧
      (value = QVariant.invalid → res.ret = false ∧ res.emitted = [])) := by
  refine ⟨?_, ?_, ?_, ⟨_, rfl, TileGridModel.setData_state self index value role, ?_⟩⟩
  · simp [TileGridModel.dataCall, TileGridModel.data_eq_invalid]
  · intro h
    simp [TileGridModel.flagsCall, TileGridModel.flags, h]
  · intro h
    simp [TileGridModel.flagsCall, TileGridModel.flags, h]
  · intro hv
    simp [TileGridModel.setData, TileGridModel.data_eq_invalid, hv]

/-- Witness for C6 (amended): on a 1 by 1 grid, the coordinate (0, 5), beyond
the column bound, and the coordinate (-1, 0). -/
theorem TileGridModel_invalid_coordinate_returns_witness :
    ((TileGridModel.new 1 1).dataCall ⟨0, 5, true⟩ DisplayRole
        = Except.ok QVariant.invalid ∧
      TileGridModel.flagsCall QAbstractItemModel.flags (TileGridModel.new 1 1)
        ⟨0, 5, true⟩ = Except.ok 35) ∧
    ((TileGridModel.new 1 1).dataCall ⟨-1, 0, true⟩ DisplayRole
        = Except.ok QVariant.invalid ∧
      TileGridModel.flagsCall QAbstractItemModel.flags (TileGridModel.new 1 1)
        ⟨-1, 0, true⟩ = Except.ok NoItemFlags) :=
  ⟨⟨(TileGridModel_invalid_coordinate_returns QAbstractItemModel.flags
        (TileGridModel.new 1 1) 1 1 ⟨0, 5, true⟩ (QVariant.int 5) EditRole
        (by decide) (by decide)).1,
    ((TileGridModel_invalid_coordinate_returns QAbstractItemModel.flags
        (TileGridModel.new 1 1) 1 1 ⟨0, 5, true⟩ (QVariant.int 5) EditRole
        (by decide) (by decide)).2.2.1 (by decide)).trans
      (congrArg Except.ok (by decide))⟩,
   ⟨(TileGridModel_invalid_coordinate_returns QAbstractItemModel.flags
        (TileGridModel.new 1 1) 1 1 ⟨-1, 0, true⟩ (QVariant.int 5) EditRole
        (by decide) (by decide)).1,
    (TileGridModel_invalid_coordinate_returns QAbstractItemModel.flags
        (TileGridModel.new 1 1) 1 1 ⟨-1, 0, true⟩ (QVariant.int 5) EditRole
        (by decide) (by decide)).2.1 (by decide)⟩⟩

/-- C8 (counterexample): immediately after constructing a 1 by 1 grid, the
slot at (0, 0) holds `nullptr`; no tile is stored there. -/
theorem TileGridModel_new_slot_is_null :
    (TileGridModel.new 1 1).slot 0 0 = some none ∧
    ¬ ∃ t : Tile, (TileGridModel.new 1 1).slot 0 0 = some (some t) := by
  refine ⟨by decide, ?_⟩
  rintro ⟨t, ht⟩
  have h0 : (TileGridModel.new 1 1).slot 0 0 = some none := by decide
  rw [h0] at ht
  cases ht

/-- C8 (amended): for every grid constructed with `rows` rows and `columns`
columns and every coordinate `(r, c)` with `r < rows` and `c < columns`, the
slot at `(r, c)` exists and holds `nullptr` immediately after construction. -/
theorem TileGridModel_new_slots_null (rows columns : Int) (r c : Nat)
    (hr : (r : Int) < rows) (hc : (c : Int) < columns) :
    (TileGridModel.new rows columns).slot r c = some none :=
  TileGridModel.new_slot rows columns r c hr hc

/-- Witness for C8 (amended): slot (1, 2) of a fresh 2 by 3 grid. -/
theorem TileGridModel_new_slots_null_witness :
    (TileGridModel.new 2 3).slot 1 2 = some none :=
  TileGridModel_new_slots_null 2 3 1 2 (by decide) (by decide)

end Py2048
